import Mathlib

/-!
Shallow embedding of the bhojanam-api service (src/server.js, the token-auth
variant, and src/unnamed/part_000, the unauthenticated variant).

JavaScript numbers are modelled as `JNum`: either a finite rational value or
NaN.  The claims settled here never depend on float rounding, infinities or
exponent notation, so those aspects of the external number type are elided.
Request-body fields are modelled as `JsVal` (the JSON-decoded values a handler
can destructure); query-string parameters are `Option String` (absent or a
string).  The MongoDB store is modelled as the list of persisted records, in
insertion order; `find().sort({createdAt:-1})` is modelled as a stable
insertion sort on the creation timestamp, and the geospatial `$near` query is
modelled by the query description the handler hands to the store (center,
maximum distance, limit), since the service itself does no distance
computation.  External-library casts performed by mongoose on save are
modelled only as far as any endpoint behaviour proved here depends on them.
-/

namespace Bhojanam

/-- A JavaScript number: a finite value or NaN. -/
inductive JNum where
  | num (q : ℚ)
  | nan
deriving DecidableEq

/-- JS `Number.isNaN`. -/
def JNum.isNaN : JNum → Bool
  | .nan => true
  | .num _ => false

/-- JS multiplication: NaN is absorbing (used for `km * 1000`).  The finite
case is rational multiplication, written through `mkRat` so that it can be
evaluated on concrete inputs; `mulJ_num_num` below proves it equal to `*`. -/
def JNum.mulJ : JNum → JNum → JNum
  | .num a, .num b => .num (mkRat (a.num * b.num) (a.den * b.den))
  | _, _ => .nan

/-- A JSON-decoded JavaScript value as seen by a request handler. -/
inductive JsVal where
  | undef
  | nullV
  | str (s : String)
  | num (n : JNum)
  | boolV (b : Bool)
deriving DecidableEq

/-- `typeof v === "string"`: returns the string when it is one. -/
def asString : JsVal → Option String
  | .str s => some s
  | _ => none

/-- `typeof v === "number"`: returns the number when it is one (NaN included). -/
def asNumber : JsVal → Option JNum
  | .num n => some n
  | _ => none

/-- Digit list to natural number, most significant first. -/
def digitsToNat (ds : List Char) : Nat :=
  ds.foldl (fun a c => 10 * a + (c.toNat - 48)) 0

/-- Core of the JS number grammar shared by `parseFloat` and `Number(...)`:
optional sign, integer digits, optional fractional digits.  Returns the value
and the unconsumed characters, or `none` when no digit was read.  Exponents,
`Infinity` and hex forms of the external builtins are elided; no claim settled
here exercises them. -/
def parseNumCore (cs : List Char) : Option (ℚ × List Char) :=
  let signed :=
    match cs with
    | '-' :: rest => (true, rest)
    | '+' :: rest => (false, rest)
    | _ => (false, cs)
  let neg := signed.1
  let cs1 := signed.2
  let ip := cs1.takeWhile Char.isDigit
  let cs2 := cs1.drop ip.length
  let fracd :=
    match cs2 with
    | '.' :: r2 => (r2.takeWhile Char.isDigit, r2.dropWhile Char.isDigit)
    | _ => ([], cs2)
  let fp := fracd.1
  let cs3 := fracd.2
  if ip.isEmpty && fp.isEmpty then none
  else
    let sgn : Int := if neg then -1 else 1
    let mag : ℚ := mkRat (sgn * (digitsToNat ip * 10 ^ fp.length + digitsToNat fp : Nat)) (10 ^ fp.length)
    some (mag, cs3)

/-- JS `parseFloat` on a string: skip leading whitespace, parse the longest
numeric head, NaN when none. -/
def parseFloatS (s : String) : JNum :=
  match parseNumCore (s.data.dropWhile Char.isWhitespace) with
  | some (v, _) => .num v
  | none => .nan

/-- `parseFloat(req.query.x)`: an absent query parameter is `undefined`, whose
string form parses to NaN. -/
def parseFloatQ : Option String → JNum
  | none => .nan
  | some s => parseFloatS s

/-- JS `Number(s)` conversion as used by the mongoose Number cast: whitespace
trims to empty gives 0, otherwise the whole string must be numeric. -/
def jsNumberOfString (s : String) : JNum :=
  let cs := ((s.data.dropWhile Char.isWhitespace).reverse.dropWhile Char.isWhitespace).reverse
  if cs.isEmpty then .num 0
  else
    match parseNumCore cs with
    | some (v, []) => .num v
    | _ => .nan

/-- The JS string builtin `trim()` (also the mongoose `trim: true` setter),
modelled structurally on the character list. -/
def jsTrim (s : String) : String :=
  ⟨((s.data.dropWhile Char.isWhitespace).reverse.dropWhile Char.isWhitespace).reverse⟩

/-- The JS string builtin `toLowerCase()` (also the mongoose
`lowercase: true` setter), modelled structurally on the character list. -/
def jsToLower (s : String) : String :=
  ⟨s.data.map Char.toLower⟩

/-- The JS string builtin `s.startsWith(p)`. -/
def jsStartsWith (s p : String) : Bool :=
  p.data.isPrefixOf s.data

/-- The JS string builtin `s.slice(n)` for a nonnegative index. -/
def jsDrop (s : String) (n : Nat) : String :=
  ⟨s.data.drop n⟩

instance {ε α : Type} [DecidableEq ε] [DecidableEq α] : DecidableEq (Except ε α) := fun a b =>
  match a, b with
  | .ok x, .ok y =>
      if h : x = y then .isTrue (by rw [h]) else .isFalse (fun g => h (Except.ok.inj g))
  | .error x, .error y =>
      if h : x = y then .isTrue (by rw [h]) else .isFalse (fun g => h (Except.error.inj g))
  | .ok _, .error _ => .isFalse (fun g => Except.noConfusion g)
  | .error _, .ok _ => .isFalse (fun g => Except.noConfusion g)

/-- The `location` subdocument of a food record (GeoJSON). -/
structure GeoPoint where
  ptype : String
  coordinates : List JNum
deriving DecidableEq

/-- The spec invariant on a stored location: a GeoJSON Point with a 2-element
coordinate pair. -/
def wfLocB (g : GeoPoint) : Bool :=
  g.ptype == "Point" && g.coordinates.length == 2

/-- A persisted food record of the token-auth variant (src/server.js). -/
structure Food where
  title : String
  quantity : JNum
  description : Option String
  location : GeoPoint
  createdBy : Option String
  createdAt : Nat
deriving DecidableEq

/-- A persisted food record of the unauthenticated variant
(src/unnamed/part_000): no description, no creator. -/
structure Food2 where
  title : String
  quantity : JNum
  location : GeoPoint
  createdAt : Nat
deriving DecidableEq

/-- The fields the POST /api/food handler of src/server.js destructures from
the request body. -/
structure FoodBody where
  title : JsVal
  quantity : JsVal
  latitude : JsVal
  longitude : JsVal
  description : JsVal
deriving DecidableEq

/-- The fields the POST /api/food handler of src/unnamed/part_000
destructures from the request body. -/
structure FoodBody2 where
  title : JsVal
  quantity : JsVal
  latitude : JsVal
  longitude : JsVal
deriving DecidableEq

/-- The typeof validation of the src/server.js POST /api/food handler:
title a string, quantity, latitude and longitude numbers. -/
def validFoodTypes (b : FoodBody) : Bool :=
  (asString b.title).isSome && (asNumber b.quantity).isSome &&
    (asNumber b.latitude).isSome && (asNumber b.longitude).isSome

/-- Mongoose cast of the optional `description` String path on save.
Absent and null store no value; a string is stored trimmed (schema
`trim: true`); the external cast of other primitives is elided as a cast
failure, which no claim settled here depends on. -/
def castDescription : JsVal → Except Unit (Option String)
  | .undef => .ok none
  | .nullV => .ok none
  | .str s => .ok (some (jsTrim s))
  | _ => .error ()

/-- `Food.create(...)` of src/server.js after the typeof validation: the
schema trims the title and its `required` validator rejects an empty string;
the location is built as `{type: "Point", coordinates: [longitude, latitude]}`
and the creator id from the auth gate is attached. -/
def foodCreate (b : FoodBody) (userId : String) (now : Nat) : Except Unit Food :=
  match asString b.title, asNumber b.quantity, asNumber b.latitude,
      asNumber b.longitude, castDescription b.description with
  | some t, some q, some lat, some lng, .ok d =>
      if jsTrim t = "" then .error ()
      else .ok ⟨jsTrim t, q, d, ⟨"Point", [lng, lat]⟩, some userId, now⟩
  | _, _, _, _, _ => .error ()

/-- Response of a create-food handler: 201 with the record, 400 invalid
payload, or 500 when the save fails. -/
inductive CreateResp (F : Type) where
  | created (f : F)
  | invalid (msg : String)
  | failure (msg : String)
deriving DecidableEq

/-- HTTP status of a create response. -/
def CreateResp.status {F : Type} : CreateResp F → Nat
  | .created _ => 201
  | .invalid _ => 400
  | .failure _ => 500

/-- Whether a create response is the 400 InvalidInput response. -/
def CreateResp.isInvalid {F : Type} : CreateResp F → Bool
  | .invalid _ => true
  | _ => false

/-- POST /api/food of src/server.js (runs behind the auth gate): typeof
validation then `Food.create`; a save failure is caught and answered with
500. Returns the response and the resulting food collection. -/
def createFood (b : FoodBody) (userId : String) (now : Nat) (st : List Food) :
    CreateResp Food × List Food :=
  if validFoodTypes b = false then (.invalid "Invalid payload", st)
  else
    match foodCreate b userId now with
    | .ok f => (.created f, st ++ [f])
    | .error _ => (.failure "Failed to add food", st)

/-- Mongoose save validation of a required String path in
src/unnamed/part_000 (no trim in that schema): absent or null fails
`required`, the empty string fails `required`, a string passes; the external
cast of other primitives is elided as a failure. -/
def requiredString : JsVal → Except Unit String
  | .str s => if s = "" then .error () else .ok s
  | _ => .error ()

/-- Mongoose cast plus `required` of a Number path: a JS number passes, a
numeric string is cast via `Number(...)` (NaN casts fail), absent or null
fails `required`, anything else fails the cast. -/
def requiredNumber : JsVal → Except Unit JNum
  | .num n => .ok n
  | .str s =>
      match jsNumberOfString s with
      | .num q => .ok (.num q)
      | .nan => .error ()
  | _ => .error ()

/-- `new Food({...}).save()` of src/unnamed/part_000: no handler-level
validation at all; the schema requires title, quantity and the coordinate
array, and the location is hardcoded as
`{type: "Point", coordinates: [longitude, latitude]}`. -/
def saveFood2 (b : FoodBody2) (now : Nat) : Except Unit Food2 :=
  match requiredString b.title, requiredNumber b.quantity,
      requiredNumber b.longitude, requiredNumber b.latitude with
  | .ok t, .ok q, .ok lng, .ok lat =>
      .ok ⟨t, q, ⟨"Point", [lng, lat]⟩, now⟩
  | _, _, _, _ => .error ()

/-- POST /api/food of src/unnamed/part_000: save directly; any failure is
caught and answered with 500.  There is no 400 path. -/
def createFood2 (b : FoodBody2) (now : Nat) (st : List Food2) :
    CreateResp Food2 × List Food2 :=
  match saveFood2 b now with
  | .ok f => (.created f, st ++ [f])
  | .error _ => (.failure "Failed to add food", st)

/-- The ordering `sort({createdAt: -1})` asks the store for: newer (or
equally old) records first. -/
def newerFirst (a b : Food) : Prop := b.createdAt ≤ a.createdAt

instance : DecidableRel newerFirst := fun a b => Nat.decLe b.createdAt a.createdAt

instance : IsTotal Food newerFirst :=
  ⟨fun a b => Nat.le_total b.createdAt a.createdAt⟩

instance : IsTrans Food newerFirst :=
  ⟨fun _ _ _ h1 h2 => Nat.le_trans h2 h1⟩

/-- Same ordering for the unauthenticated variant's records. -/
def newerFirst2 (a b : Food2) : Prop := b.createdAt ≤ a.createdAt

instance : DecidableRel newerFirst2 := fun a b => Nat.decLe b.createdAt a.createdAt

instance : IsTotal Food2 newerFirst2 :=
  ⟨fun a b => Nat.le_total b.createdAt a.createdAt⟩

instance : IsTrans Food2 newerFirst2 :=
  ⟨fun _ _ _ h1 h2 => Nat.le_trans h2 h1⟩

/-- GET /api/food of src/server.js:
`Food.find().sort({createdAt:-1}).limit(100)` — the store sorts by
descending creation time and returns at most 100 records. -/
def listFood (st : List Food) : List Food :=
  (st.insertionSort newerFirst).take 100

/-- GET /api/food of src/unnamed/part_000:
`Food.find().sort({createdAt:-1})` — sorted the same way but with no
`limit` clause: every record is returned. -/
def listFood2 (st : List Food2) : List Food2 :=
  st.insertionSort newerFirst2

/-- The `$near` query a nearby handler hands to the store: the GeoJSON
center `[lng, lat]`, the `$maxDistance` in meters, and the `limit` applied
to the cursor (none when the handler applies no limit). -/
structure NearQuery where
  centerLng : JNum
  centerLat : JNum
  maxDistance : JNum
  qlimit : Option Nat
deriving DecidableEq

/-- Response of a nearby handler: 400 invalid input, a store query, or the
500 of the catch block. -/
inductive NearbyResp where
  | invalid (msg : String)
  | query (q : NearQuery)
  | failure (msg : String)
deriving DecidableEq

/-- Whether a nearby response is the 400 InvalidInput response. -/
def NearbyResp.isInvalid : NearbyResp → Bool
  | .invalid _ => true
  | _ => false

/-- `req.query.km || "5"`: an absent parameter is `undefined` and the empty
string is falsy, both giving the default "5". -/
def kmRaw : Option String → String
  | none => "5"
  | some s => if s = "" then "5" else s

/-- GET /api/food/nearby of src/server.js: parse lat, lng and km, answer 400
when lat or lng is NaN, otherwise query the store centered at `[lng, lat]`
with `$maxDistance: km * 1000` and `limit(100)`. -/
def nearbyFood (lat lng km : Option String) : NearbyResp :=
  if (parseFloatQ lat).isNaN || (parseFloatQ lng).isNaN then
    .invalid "lat & lng query params required"
  else
    .query ⟨parseFloatQ lng, parseFloatQ lat,
      (parseFloatS (kmRaw km)).mulJ (.num 1000), some 100⟩

/-- GET /api/food/nearby of src/unnamed/part_000: no validation and no km
parameter — the handler destructures only lat and lng, parses them straight
into the query, hardcodes `$maxDistance: 5000` and applies no limit. -/
def nearbyFood2 (lat lng _km : Option String) : NearbyResp :=
  .query ⟨parseFloatQ lng, parseFloatQ lat, .num 5000, none⟩

/-- A persisted user of the token-auth variant.  The schema lowercases and
trims the email; `password` holds the bcrypt hash. -/
structure User where
  id : String
  name : Option String
  email : String
  password : String
deriving DecidableEq

/-- The public projection of a user returned by signup and login: exactly
id, name and email — the type has no password field. -/
structure PublicUser where
  id : String
  name : Option String
  email : String
deriving DecidableEq

/-- The mongoose `lowercase: true, trim: true` setters on the email path,
applied both on save and to `findOne` query values. -/
def normalizeEmail (s : String) : String := jsToLower (jsTrim s)

/-- JS truthiness of an absent-or-string body field: `undefined` and the
empty string are falsy. -/
def falsyStr : Option String → Bool
  | none => true
  | some s => s == ""

/-- Response of POST /auth/signup: 200 with the public user, 400 missing
fields, 409 duplicate email, or the catch block's 400 carrying the thrown
message. -/
inductive SignupResp where
  | ok (user : PublicUser)
  | invalid (msg : String)
  | conflict (msg : String)
  | errCaught (msg : String)
deriving DecidableEq

/-- HTTP status of a signup response. -/
def SignupResp.status : SignupResp → Nat
  | .ok _ => 200
  | .invalid _ => 400
  | .conflict _ => 409
  | .errCaught _ => 400

/-- POST /auth/signup of src/server.js: 400 when email or password is falsy;
409 when `findOne` (with the email setters applied to the filter) finds a
user; otherwise hash the password, persist the user and answer with the
public fields.  `hash` stands for the external `bcrypt.hash` and `freshId`
for the store-generated id. -/
def signup (hash : String → String) (freshId : String)
    (name email password : Option String) (users : List User) :
    SignupResp × List User :=
  if falsyStr email || falsyStr password then
    (.invalid "Email & password required", users)
  else
    match users.find? (fun u => u.email == normalizeEmail (email.getD "")) with
    | some _ => (.conflict "Email already in use", users)
    | none =>
        (.ok ⟨freshId, name.map jsTrim, normalizeEmail (email.getD "")⟩,
          users ++ [⟨freshId, name.map jsTrim, normalizeEmail (email.getD ""),
            hash (password.getD "")⟩])

/-- Response of POST /auth/login: 200 with token and public user, or 401. -/
inductive LoginResp where
  | ok (token : String) (user : PublicUser)
  | unauthorized (msg : String)
deriving DecidableEq

/-- `User.findOne({ email })`: mongoose strips `undefined` values from the
filter, so a missing email matches the first stored user; a present email is
compared after the lowercase/trim setters run on the filter value. -/
def findOneByEmail (email : Option String) (users : List User) : Option User :=
  match email with
  | none => users.head?
  | some e => users.find? (fun u => u.email == normalizeEmail e)

/-- POST /auth/login of src/server.js: find the user, verify the password
against the stored hash, issue a signed token plus the public fields; both
failure cases answer the identical 401.  `compareHash` stands for the
external `bcrypt.compare` and `sign` for `jwt.sign` (its rejection on a
non-string password is modelled at the boundary layer). -/
def login (compareHash : String → String → Bool) (sign : String → String)
    (email password : Option String) (users : List User) : LoginResp :=
  match findOneByEmail email users with
  | none => .unauthorized "Invalid credentials"
  | some u =>
      if compareHash (password.getD "") u.password then
        .ok (sign u.id) ⟨u.id, u.name, u.email⟩
      else .unauthorized "Invalid credentials"

/-- Verdict of the external `jwt.verify` on a presented token: the decoded
user id, or one of the three failure modes it throws on. -/
inductive TokenVerdict where
  | valid (userId : String)
  | malformed
  | badSignature
  | expired
deriving DecidableEq

/-- Whether `jwt.verify` throws for this verdict. -/
def TokenVerdict.isFailure : TokenVerdict → Bool
  | .valid _ => false
  | _ => true

/-- Result of the auth gate: pass the request on with the user id, or send a
response. -/
inductive AuthResult where
  | proceed (userId : String)
  | reject (status : Nat) (errorMsg : String)
deriving DecidableEq

/-- Token extraction of the `authRequired` middleware:
`auth.startsWith("Bearer ") ? auth.slice(7) : null`, with the empty
remainder falsy like `null`. -/
def bearerToken (auth : String) : Option String :=
  if jsStartsWith auth "Bearer " then
    if jsDrop auth 7 = "" then none else some (jsDrop auth 7)
  else none

/-- The `authRequired` middleware of src/server.js: 401 `{error: "No token"}`
when no bearer token is present; otherwise `jwt.verify` runs in a try/catch
whose single catch answers 401 `{error: "Invalid token"}` for every throw
(malformed, bad signature or expired alike) and success proceeds with the
decoded id. -/
def authRequired (verify : String → TokenVerdict) (authHeader : Option String) :
    AuthResult :=
  match bearerToken (authHeader.getD "") with
  | none => .reject 401 "No token"
  | some tok =>
      match verify tok with
      | .valid uid => .proceed uid
      | _ => .reject 401 "Invalid token"

/-- What happens at a handler boundary: a response was sent, or a rejected
promise escaped the handler unhandled. -/
inductive Outcome (ρ : Type) where
  | responded (r : ρ)
  | escaped (errMsg : String)
deriving DecidableEq

/-- Response of a list handler: the records or the catch block's 500. -/
inductive ListResp (F : Type) where
  | ok (items : List F)
  | failure (msg : String)
deriving DecidableEq

/-- POST /auth/signup at the boundary: the whole body runs in a try/catch
whose catch answers 400 with the thrown message, so a store or bcrypt
failure (`err`) still produces a JSON response. -/
def signupBoundary (err : Option String) (hash : String → String) (freshId : String)
    (name email password : Option String) (users : List User) : Outcome SignupResp :=
  match err with
  | some m => .responded (.errCaught m)
  | none => .responded (signup hash freshId name email password users).1

/-- POST /auth/login at the boundary: the handler has no try/catch, so a
store or bcrypt rejection escapes it unhandled. -/
def loginBoundary (err : Option String) (compareHash : String → String → Bool)
    (sign : String → String) (email password : Option String) (users : List User) :
    Outcome LoginResp :=
  match err with
  | some m => .escaped m
  | none => .responded (login compareHash sign email password users)

/-- POST /api/food of src/server.js at the boundary: catch answers 500. -/
def createFoodBoundary (err : Option String) (b : FoodBody) (userId : String)
    (now : Nat) (st : List Food) : Outcome (CreateResp Food) :=
  match err with
  | some _ => .responded (.failure "Failed to add food")
  | none => .responded (createFood b userId now st).1

/-- GET /api/food of src/server.js at the boundary: catch answers 500. -/
def listFoodBoundary (err : Option String) (st : List Food) : Outcome (ListResp Food) :=
  match err with
  | some _ => .responded (.failure "Failed to fetch food list")
  | none => .responded (.ok (listFood st))

/-- GET /api/food/nearby of src/server.js at the boundary: catch answers 500. -/
def nearbyFoodBoundary (err : Option String) (lat lng km : Option String) :
    Outcome NearbyResp :=
  match err with
  | some _ => .responded (.failure "Failed to fetch nearby food")
  | none => .responded (nearbyFood lat lng km)

/-- POST /api/food of src/unnamed/part_000 at the boundary: catch answers 500. -/
def createFood2Boundary (err : Option String) (b : FoodBody2) (now : Nat)
    (st : List Food2) : Outcome (CreateResp Food2) :=
  match err with
  | some _ => .responded (.failure "Failed to add food")
  | none => .responded (createFood2 b now st).1

/-- GET /api/food of src/unnamed/part_000 at the boundary: catch answers 500. -/
def listFood2Boundary (err : Option String) (st : List Food2) : Outcome (ListResp Food2) :=
  match err with
  | some _ => .responded (.failure "Failed to fetch food list")
  | none => .responded (.ok (listFood2 st))

/-- GET /api/food/nearby of src/unnamed/part_000 at the boundary: catch
answers 500. -/
def nearbyFood2Boundary (err : Option String) (lat lng km : Option String) :
    Outcome NearbyResp :=
  match err with
  | some _ => .responded (.failure "Failed to fetch nearby food")
  | none => .responded (nearbyFood2 lat lng km)

/-- Sanity check of the evaluable multiplication: `mulJ` on finite values is
rational multiplication. -/
theorem mulJ_num_num (a b : ℚ) : JNum.mulJ (.num a) (.num b) = .num (a * b) := by
  have hd : a.den * b.den ≠ 0 := Nat.mul_ne_zero a.den_nz b.den_nz
  show JNum.num (mkRat (a.num * b.num) (a.den * b.den)) = JNum.num (a * b)
  rw [Rat.mul_def, Rat.mkRat_def, dif_neg hd]

/-- A value passing the `typeof v === "string"` check is a string. -/
theorem asString_eq_some {v : JsVal} {s : String} (h : asString v = some s) :
    v = .str s := by
  cases v <;> simp [asString] at h
  exact congrArg JsVal.str h

/-- A value passing the `typeof v === "number"` check is a number. -/
theorem asNumber_eq_some {v : JsVal} {n : JNum} (h : asNumber v = some n) :
    v = .num n := by
  cases v <;> simp [asNumber] at h
  exact congrArg JsVal.num h

/-- A successful `Food.create` stores the location built from the body's
latitude and longitude, longitude first. -/
theorem foodCreate_ok {b : FoodBody} {uid : String} {now : Nat} {f : Food}
    (h : foodCreate b uid now = .ok f) :
    ∃ lat lng, b.latitude = JsVal.num lat ∧ b.longitude = JsVal.num lng ∧
      f.location = ⟨"Point", [lng, lat]⟩ := by
  unfold foodCreate at h
  split at h
  case _ t q lat lng d hT hQ hLat hLng hD =>
    split at h
    · exact absurd h (by simp)
    · refine ⟨lat, lng, asNumber_eq_some hLat, asNumber_eq_some hLng, ?_⟩
      cases h
      rfl
  case _ => exact absurd h (by simp)

/-- A successful save in the unauthenticated variant stores the location
built from the body's cast latitude and longitude, longitude first. -/
theorem saveFood2_ok {b2 : FoodBody2} {now : Nat} {f2 : Food2}
    (h : saveFood2 b2 now = .ok f2) :
    ∃ lat lng, requiredNumber b2.latitude = .ok lat ∧
      requiredNumber b2.longitude = .ok lng ∧
      f2.location = ⟨"Point", [lng, lat]⟩ := by
  unfold saveFood2 at h
  split at h
  case _ t q lng lat hT hQ hLng hLat =>
    refine ⟨lat, lng, hLat, hLng, ?_⟩
    cases h
    rfl
  case _ => exact absurd h (by simp)

/-- Claim C1: every record persisted by a successful POST /api/food (in both
variants) carries `location = {type: "Point", coordinates: [longitude,
latitude]}` with the longitude first, and no operation of the service stores
a food record whose location violates that GeoJSON-Point, 2-element shape:
the two create handlers are the only writers of food records, and each
appends exactly one well-shaped record. -/
theorem c1_created_location_shape
    (b : FoodBody) (uid : String) (now : Nat) (st : List Food)
    (b2 : FoodBody2) (now2 : Nat) (st2 : List Food2)
    (f : Food) (st' : List Food) (f2 : Food2) (st2' : List Food2)
    (h1 : createFood b uid now st = (CreateResp.created f, st'))
    (h2 : createFood2 b2 now2 st2 = (CreateResp.created f2, st2'))
    (hwf : st.all (fun g => wfLocB g.location) = true)
    (hwf2 : st2.all (fun g => wfLocB g.location) = true) :
    (∃ lat lng, b.latitude = JsVal.num lat ∧ b.longitude = JsVal.num lng ∧
      f.location = ⟨"Point", [lng, lat]⟩) ∧
    (∃ lat2 lng2, requiredNumber b2.latitude = .ok lat2 ∧
      requiredNumber b2.longitude = .ok lng2 ∧
      f2.location = ⟨"Point", [lng2, lat2]⟩) ∧
    st' = st ++ [f] ∧ st2' = st2 ++ [f2] ∧
    st'.all (fun g => wfLocB g.location) = true ∧
    st2'.all (fun g => wfLocB g.location) = true := by
  unfold createFood at h1
  split at h1
  · exact absurd h1 (by simp)
  · unfold createFood2 at h2
    rcases hs2 : saveFood2 b2 now2 with e2 | f2ok
    all_goals rw [hs2] at h2
    · exact absurd h2 (by simp)
    rcases hc : foodCreate b uid now with e1 | f1ok
    all_goals rw [hc] at h1
    · exact absurd h1 (by simp)
    obtain ⟨hf, hst⟩ : CreateResp.created f1ok = CreateResp.created f ∧ st ++ [f1ok] = st' :=
      by exact ⟨congrArg Prod.fst h1, congrArg Prod.snd h1⟩
    obtain ⟨hf2, hst2⟩ : CreateResp.created f2ok = CreateResp.created f2 ∧ st2 ++ [f2ok] = st2' :=
      by exact ⟨congrArg Prod.fst h2, congrArg Prod.snd h2⟩
    cases hf; cases hf2
    obtain ⟨lat, lng, hbl, hbg, hloc⟩ := foodCreate_ok hc
    obtain ⟨lat2, lng2, hbl2, hbg2, hloc2⟩ := saveFood2_ok hs2
    refine ⟨⟨lat, lng, hbl, hbg, hloc⟩, ⟨lat2, lng2, hbl2, hbg2, hloc2⟩,
      hst.symm, hst2.symm, ?_, ?_⟩
    · rw [← hst, List.all_append, hwf, Bool.true_and]
      simp [wfLocB, hloc]
    · rw [← hst2, List.all_append, hwf2, Bool.true_and]
      simp [wfLocB, hloc2]

/-- Concrete run of claim C1: creating "Rice" at latitude 12.9, longitude
77.6 in the token variant and "Roti" at latitude 1, longitude 2 in the
unauthenticated variant persists well-shaped Point locations with the
longitude first. -/
theorem c1_created_location_shape_witness :
    (∃ lat lng, JsVal.num (JNum.num (mkRat 129 10)) = JsVal.num lat ∧
      JsVal.num (JNum.num (mkRat 388 5)) = JsVal.num lng ∧
      (⟨"Rice", JNum.num 5, none,
        ⟨"Point", [JNum.num (mkRat 388 5), JNum.num (mkRat 129 10)]⟩,
        some "u1", 7⟩ : Food).location = ⟨"Point", [lng, lat]⟩) ∧
    ([(⟨"Roti", JNum.num 3, ⟨"Point", [JNum.num 2, JNum.num 1]⟩, 3⟩ : Food2)].all
      (fun g => wfLocB g.location) = true) := by
  have h := c1_created_location_shape
    ⟨.str "Rice", .num (.num 5), .num (.num (mkRat 129 10)), .num (.num (mkRat 388 5)), .undef⟩
    "u1" 7 []
    ⟨.str "Roti", .num (.num 3), .num (.num 1), .num (.num 2)⟩ 3 []
    ⟨"Rice", JNum.num 5, none, ⟨"Point", [JNum.num (mkRat 388 5), JNum.num (mkRat 129 10)]⟩,
      some "u1", 7⟩
    [⟨"Rice", JNum.num 5, none, ⟨"Point", [JNum.num (mkRat 388 5), JNum.num (mkRat 129 10)]⟩,
      some "u1", 7⟩]
    ⟨"Roti", JNum.num 3, ⟨"Point", [JNum.num 2, JNum.num 1]⟩, 3⟩
    [⟨"Roti", JNum.num 3, ⟨"Point", [JNum.num 2, JNum.num 1]⟩, 3⟩]
    (by decide) (by decide) (by decide) (by decide)
  exact ⟨h.1, h.2.2.2.2.2⟩

/-- Amendment of claim C2: both listing endpoints return records sorted by
descending creation time, but only the src/server.js variant caps the page
at 100 records; the src/unnamed/part_000 variant has no `limit` clause and
returns every stored record. -/
theorem c2_listing_sorted_capped (st : List Food) (st2 : List Food2) :
    (listFood st).length ≤ 100 ∧
    (listFood st).Pairwise newerFirst ∧
    (listFood2 st2).Pairwise newerFirst2 ∧
    (listFood2 st2).length = st2.length := by
  refine ⟨List.length_take_le 100 _, ?_, ?_, ?_⟩
  · exact List.Pairwise.sublist (List.take_sublist 100 _) (List.sorted_insertionSort newerFirst st)
  · exact List.sorted_insertionSort newerFirst2 st2
  · exact (List.perm_insertionSort newerFirst2 st2).length_eq

/-- Counterexample to claim C2 as stated: with 101 stored records the
unauthenticated variant's GET /api/food returns all 101 of them, exceeding
the claimed hard cap of 100. -/
theorem c2_counterexample :
    100 < (listFood2 (List.replicate 101
      ⟨"Rice", JNum.num 5, ⟨"Point", [JNum.num 0, JNum.num 0]⟩, 0⟩)).length := by
  have h := (List.perm_insertionSort newerFirst2 (List.replicate 101
    (⟨"Rice", JNum.num 5, ⟨"Point", [JNum.num 0, JNum.num 0]⟩, 0⟩ : Food2))).length_eq
  unfold listFood2
  rw [h, List.length_replicate]
  omega

/-- Amendment of claim C3: in the src/server.js variant GET /api/food/nearby
answers 400 exactly when lat or lng is missing or unparseable (NaN after
parseFloat) and otherwise proceeds to the store query; the
src/unnamed/part_000 variant performs no validation at all — it always
issues the store query, with the possibly-NaN parsed coordinates passed
straight through as the center. -/
theorem c3_nearby_validation (lat lng km : Option String) :
    ((nearbyFood lat lng km).isInvalid = true ↔
      ((parseFloatQ lat).isNaN = true ∨ (parseFloatQ lng).isNaN = true)) ∧
    ((parseFloatQ lat).isNaN = false → (parseFloatQ lng).isNaN = false →
      nearbyFood lat lng km = NearbyResp.query
        ⟨parseFloatQ lng, parseFloatQ lat,
          (parseFloatS (kmRaw km)).mulJ (JNum.num 1000), some 100⟩) ∧
    nearbyFood2 lat lng km = NearbyResp.query
      ⟨parseFloatQ lng, parseFloatQ lat, JNum.num 5000, none⟩ := by
  refine ⟨?_, ?_, rfl⟩
  · unfold nearbyFood
    rcases h1 : (parseFloatQ lat).isNaN <;> rcases h2 : (parseFloatQ lng).isNaN <;>
      simp [NearbyResp.isInvalid]
  · intro h1 h2
    unfold nearbyFood
    rw [h1, h2]
    rfl

/-- Concrete run of claim C3's amendment: parseable coordinates proceed to
the store query in the src/server.js variant. -/
theorem c3_nearby_validation_witness :
    nearbyFood (some "12.9") (some "77.6") none = NearbyResp.query
      ⟨parseFloatQ (some "77.6"), parseFloatQ (some "12.9"),
        (parseFloatS (kmRaw none)).mulJ (JNum.num 1000), some 100⟩ :=
  (c3_nearby_validation (some "12.9") (some "77.6") none).2.1 (by decide) (by decide)

/-- Counterexample to claim C3 as stated: in the src/unnamed/part_000
variant a nearby request with the lat parameter missing does not fail with
InvalidInput (400) — the handler issues the store query with a NaN center
coordinate instead. -/
theorem c3_counterexample :
    nearbyFood2 none (some "77.6") none =
      NearbyResp.query ⟨JNum.num (mkRat 388 5), JNum.nan, JNum.num 5000, none⟩ ∧
    (nearbyFood2 none (some "77.6") none).isInvalid = false := by
  exact ⟨by decide, by decide⟩

/-- Amendment of claim C4: in the src/server.js variant the km radius is
optional with default 5, the effective `$maxDistance` is `km * 1000` meters,
the search is centered at `(lng, lat)` and the result is capped at 100; the
src/unnamed/part_000 variant ignores any km parameter entirely (the radius
is hardcoded to 5000 meters) and applies no result cap. -/
theorem c4_nearby_radius (lat lng km : Option String)
    (h1 : (parseFloatQ lat).isNaN = false) (h2 : (parseFloatQ lng).isNaN = false) :
    nearbyFood lat lng none = NearbyResp.query
      ⟨parseFloatQ lng, parseFloatQ lat, JNum.num 5000, some 100⟩ ∧
    nearbyFood lat lng km = NearbyResp.query
      ⟨parseFloatQ lng, parseFloatQ lat,
        (parseFloatS (kmRaw km)).mulJ (JNum.num 1000), some 100⟩ ∧
    nearbyFood2 lat lng km = NearbyResp.query
      ⟨parseFloatQ lng, parseFloatQ lat, JNum.num 5000, none⟩ := by
  have hkm : (parseFloatS (kmRaw none)).mulJ (JNum.num 1000) = JNum.num 5000 := by decide
  refine ⟨?_, ?_, rfl⟩
  · unfold nearbyFood
    rw [h1, h2, hkm]
    rfl
  · unfold nearbyFood
    rw [h1, h2]
    rfl

/-- Concrete run of claim C4's amendment: km=2 gives a 2000 meter radius
capped at 100 results in the src/server.js variant. -/
theorem c4_nearby_radius_witness :
    nearbyFood (some "12.9") (some "77.6") (some "2") = NearbyResp.query
      ⟨parseFloatQ (some "77.6"), parseFloatQ (some "12.9"),
        (parseFloatS (kmRaw (some "2"))).mulJ (JNum.num 1000), some 100⟩ ∧
    (parseFloatS (kmRaw (some "2"))).mulJ (JNum.num 1000) = JNum.num 2000 :=
  ⟨(c4_nearby_radius (some "12.9") (some "77.6") (some "2") (by decide) (by decide)).2.1,
    by decide⟩

/-- Counterexample to claim C4 as stated: in the src/unnamed/part_000
variant a nearby request with km=10 still searches a 5000 meter radius (not
km * 1000 = 10000) and applies no 100-record cap. -/
theorem c4_counterexample :
    nearbyFood2 (some "12.9") (some "77.6") (some "10") = NearbyResp.query
      ⟨JNum.num (mkRat 388 5), JNum.num (mkRat 129 10), JNum.num 5000, none⟩ ∧
    (parseFloatS "10").mulJ (JNum.num 1000) = JNum.num 10000 ∧
    JNum.num (5000 : ℚ) ≠ JNum.num (10000 : ℚ) ∧
    (some (5000 : Nat) : Option Nat) ≠ none := by
  refine ⟨by decide, by decide, by decide, by decide⟩

/-- Amendment of claim C5: in the src/server.js variant any missing or
wrongly-typed required field (title string; quantity, latitude, longitude
numbers) fails with InvalidInput (400) and persists nothing, and the valid
coordinate value 0 is accepted; the src/unnamed/part_000 variant has no
validation and no 400 path at all — a failing save (e.g. a missing required
field) is caught and answered with 500, persisting nothing, and coordinate
0 is accepted there too. -/
theorem c5_create_validation (b : FoodBody) (uid : String) (now : Nat) (st : List Food)
    (b2 : FoodBody2) (now2 : Nat) (st2 : List Food2) :
    (validFoodTypes b = false →
      createFood b uid now st = (CreateResp.invalid "Invalid payload", st)) ∧
    (createFood2 b2 now2 st2).1.isInvalid = false ∧
    (saveFood2 b2 now2 = .error () →
      createFood2 b2 now2 st2 = (CreateResp.failure "Failed to add food", st2)) ∧
    (∀ t q, b.title = JsVal.str t → jsTrim t ≠ "" → b.quantity = JsVal.num q →
      b.latitude = JsVal.num (JNum.num 0) → b.longitude = JsVal.num (JNum.num 0) →
      castDescription b.description = .ok none →
      createFood b uid now st =
        (CreateResp.created ⟨jsTrim t, q, none, ⟨"Point", [JNum.num 0, JNum.num 0]⟩, some uid, now⟩,
          st ++ [⟨jsTrim t, q, none, ⟨"Point", [JNum.num 0, JNum.num 0]⟩, some uid, now⟩])) ∧
    (∀ t q, b2.title = JsVal.str t → t ≠ "" → b2.quantity = JsVal.num q →
      b2.latitude = JsVal.num (JNum.num 0) → b2.longitude = JsVal.num (JNum.num 0) →
      createFood2 b2 now2 st2 =
        (CreateResp.created ⟨t, q, ⟨"Point", [JNum.num 0, JNum.num 0]⟩, now2⟩,
          st2 ++ [⟨t, q, ⟨"Point", [JNum.num 0, JNum.num 0]⟩, now2⟩])) := by
  refine ⟨?_, ?_, ?_, ?_, ?_⟩
  · intro h
    unfold createFood
    rw [h]
    rfl
  · unfold createFood2
    rcases hs : saveFood2 b2 now2 <;> simp [CreateResp.isInvalid]
  · intro h
    unfold createFood2
    rw [h]
  · intro t q ht htr hq hlat hlng hd
    unfold createFood validFoodTypes foodCreate
    rw [ht, hq, hlat, hlng, hd]
    simp [asString, asNumber, htr]
  · intro t q ht htr hq hlat hlng
    unfold createFood2 saveFood2 requiredString requiredNumber
    rw [ht, hq, hlat, hlng]
    simp [htr]

/-- Concrete run of claim C5's amendment: a wrongly-typed payload (numeric
title) is answered 400 without persisting in the src/server.js variant, and
latitude 0, longitude 0 is accepted in both variants. -/
theorem c5_create_validation_witness :
    createFood ⟨.num (.num 1), .num (.num 5), .num (.num 0), .num (.num 0), .undef⟩ "u1" 7 []
      = (CreateResp.invalid "Invalid payload", []) ∧
    createFood ⟨.str "Rice", .num (.num 5), .num (.num 0), .num (.num 0), .undef⟩ "u1" 7 []
      = (CreateResp.created ⟨jsTrim "Rice", JNum.num 5, none,
          ⟨"Point", [JNum.num 0, JNum.num 0]⟩, some "u1", 7⟩,
        [] ++ [⟨jsTrim "Rice", JNum.num 5, none,
          ⟨"Point", [JNum.num 0, JNum.num 0]⟩, some "u1", 7⟩]) ∧
    createFood2 ⟨.str "Roti", .num (.num 3), .num (.num 0), .num (.num 0)⟩ 3 []
      = (CreateResp.created ⟨"Roti", JNum.num 3, ⟨"Point", [JNum.num 0, JNum.num 0]⟩, 3⟩,
        [] ++ [⟨"Roti", JNum.num 3, ⟨"Point", [JNum.num 0, JNum.num 0]⟩, 3⟩]) := by
  refine ⟨?_, ?_, ?_⟩
  · exact (c5_create_validation ⟨.num (.num 1), .num (.num 5), .num (.num 0), .num (.num 0), .undef⟩
      "u1" 7 [] ⟨.undef, .undef, .undef, .undef⟩ 0 []).1 (by decide)
  · exact (c5_create_validation ⟨.str "Rice", .num (.num 5), .num (.num 0), .num (.num 0), .undef⟩
      "u1" 7 [] ⟨.undef, .undef, .undef, .undef⟩ 0 []).2.2.2.1 "Rice" (JNum.num 5)
      rfl (by decide) rfl rfl rfl (by decide)
  · exact (c5_create_validation ⟨.undef, .undef, .undef, .undef, .undef⟩ "u1" 0 []
      ⟨.str "Roti", .num (.num 3), .num (.num 0), .num (.num 0)⟩ 3 []).2.2.2.2 "Roti" (JNum.num 3)
      rfl (by decide) rfl rfl rfl

/-- Counterexample to claim C5 as stated: in the src/unnamed/part_000
variant a create request with the required title absent is answered 500
(Internal), not 400 (InvalidInput). -/
theorem c5_counterexample :
    createFood2 ⟨JsVal.undef, .num (.num 5), .num (.num (mkRat 129 10)),
        .num (.num (mkRat 388 5))⟩ 0 []
      = (CreateResp.failure "Failed to add food", []) ∧
    (CreateResp.failure "Failed to add food" : CreateResp Food2).status = 500 ∧
    (CreateResp.failure "Failed to add food" : CreateResp Food2).isInvalid = false := by
  refine ⟨by decide, by decide, by decide⟩

/-- Claim C6: POST /auth/signup fails with InvalidInput (400) when email or
password is missing (falsy) — in particular when the email field is entirely
absent — fails with Conflict (409) when a stored user has the same email
compared case-insensitively after trimming — stored emails are normalized by
the schema setters, which also run on the findOne filter — and otherwise
creates the user with the normalized email. -/
theorem c6_signup_rules (hash : String → String) (freshId : String)
    (name email password : Option String) (users : List User) :
    ((falsyStr email = true ∨ falsyStr password = true) →
      signup hash freshId name email password users =
        (SignupResp.invalid "Email & password required", users)) ∧
    (signup hash freshId name none password users =
      (SignupResp.invalid "Email & password required", users)) ∧
    (∀ e : String, email = some e →
      falsyStr email = false → falsyStr password = false →
      ((∃ u ∈ users, u.email = normalizeEmail e) →
        signup hash freshId name email password users =
          (SignupResp.conflict "Email already in use", users)) ∧
      ((∀ u ∈ users, u.email ≠ normalizeEmail e) →
        signup hash freshId name email password users =
          (SignupResp.ok ⟨freshId, name.map jsTrim, normalizeEmail e⟩,
            users ++ [⟨freshId, name.map jsTrim, normalizeEmail e,
              hash (password.getD "")⟩]))) ∧
    (∀ (e e0 : String) (u : User), email = some e →
      u ∈ users → u.email = normalizeEmail e0 →
      normalizeEmail e0 = normalizeEmail e →
      falsyStr email = false → falsyStr password = false →
      signup hash freshId name email password users =
        (SignupResp.conflict "Email already in use", users)) := by
  have hmiss : ∀ email2 : Option String,
      (falsyStr email2 = true ∨ falsyStr password = true) →
      signup hash freshId name email2 password users =
        (SignupResp.invalid "Email & password required", users) := by
    intro email2 h
    unfold signup
    rcases h with h | h <;> rw [h] <;> simp
  have hconf : ∀ e : String, email = some e →
      falsyStr email = false → falsyStr password = false →
      (∃ u ∈ users, u.email = normalizeEmail e) →
      signup hash freshId name email password users =
        (SignupResp.conflict "Email already in use", users) := by
    intro e he h1 h2 hex
    subst he
    obtain ⟨u, hu, hue⟩ := hex
    have hsome : (users.find? (fun v => v.email == normalizeEmail ((some e).getD ""))).isSome := by
      refine List.find?_isSome.mpr ⟨u, hu, ?_⟩
      simp [hue]
    obtain ⟨u', hu'⟩ := Option.isSome_iff_exists.mp hsome
    unfold signup
    rw [h1, h2, hu']
    simp
  refine ⟨hmiss email, hmiss none (Or.inl rfl),
    fun e he h1 h2 => ⟨hconf e he h1 h2, ?_⟩,
    fun e e0 u he hu hue heq h1 h2 => hconf e he h1 h2 ⟨u, hu, by rw [hue, heq]⟩⟩
  intro hall
  subst he
  have hnone : users.find? (fun v => v.email == normalizeEmail ((some e).getD "")) = none := by
    refine List.find?_eq_none.mpr (fun u hu => ?_)
    simp [hall u hu]
  unfold signup
  rw [h1, h2, hnone]
  simp

/-- Concrete run of claim C6: an entirely absent email field is answered
400, as is a missing password; signing up " FOO@BAR.com " against a store
holding "foo@bar.com" is answered 409; a fresh email is created with its
normalized form. -/
theorem c6_signup_rules_witness :
    signup (fun s => s ++ "#h") "id1" none none (some "pw") []
      = (SignupResp.invalid "Email & password required", []) ∧
    signup (fun s => s ++ "#h") "id1" none (some "a@b.c") none []
      = (SignupResp.invalid "Email & password required", []) ∧
    signup (fun s => s ++ "#h") "id1" none (some " FOO@BAR.com ") (some "pw")
        [⟨"id0", none, "foo@bar.com", "H"⟩]
      = (SignupResp.conflict "Email already in use", [⟨"id0", none, "foo@bar.com", "H"⟩]) ∧
    signup (fun s => s ++ "#h") "id1" none (some "a@b.c") (some "secret") []
      = (SignupResp.ok ⟨"id1", Option.map jsTrim none, normalizeEmail "a@b.c"⟩,
        [] ++ [⟨"id1", Option.map jsTrim none, normalizeEmail "a@b.c",
          (fun s => s ++ "#h") ((some "secret").getD "")⟩]) := by
  refine ⟨?_, ?_, ?_, ?_⟩
  · exact (c6_signup_rules (fun s => s ++ "#h") "id1" none none (some "pw") []).2.1
  · exact (c6_signup_rules (fun s => s ++ "#h") "id1" none (some "a@b.c") none []).1
      (Or.inr (by decide))
  · exact ((c6_signup_rules (fun s => s ++ "#h") "id1" none (some " FOO@BAR.com ") (some "pw")
      [⟨"id0", none, "foo@bar.com", "H"⟩]).2.2.1 " FOO@BAR.com " rfl (by decide) (by decide)).1
      ⟨⟨"id0", none, "foo@bar.com", "H"⟩, by decide, by decide⟩
  · exact ((c6_signup_rules (fun s => s ++ "#h") "id1" none (some "a@b.c") (some "secret")
      []).2.2.1 "a@b.c" rfl (by decide) (by decide)).2 (by intro u hu; cases hu)

/-- A rejection of the auth gate always carries status 401 and one of the
two bodies of the middleware. -/
theorem authRequired_reject_cases (verify : String → TokenVerdict) (h : Option String)
    (s : Nat) (msg : String) (hrej : authRequired verify h = AuthResult.reject s msg) :
    s = 401 ∧ (msg = "No token" ∨ msg = "Invalid token") := by
  unfold authRequired at hrej
  rcases hb : bearerToken (h.getD "") with _ | tok
  all_goals simp only [hb] at hrej
  · obtain ⟨hs, hm⟩ := AuthResult.reject.inj hrej
    exact ⟨hs.symm, Or.inl hm.symm⟩
  · cases hv : verify tok
    all_goals simp only [hv] at hrej
    case valid uid => exact AuthResult.noConfusion hrej
    all_goals obtain ⟨hs, hm⟩ := AuthResult.reject.inj hrej
    all_goals exact ⟨hs.symm, Or.inr hm.symm⟩

/-- Any always-failing verifier makes the gate behave like a canonical
failing verifier: the response does not depend on which failure it was. -/
theorem authRequired_fail_eq (v : String → TokenVerdict) (h : Option String)
    (hf : ∀ t, (v t).isFailure = true) :
    authRequired v h = authRequired (fun _ => TokenVerdict.malformed) h := by
  unfold authRequired
  rcases hb : bearerToken (h.getD "") with _ | tok
  all_goals simp only [hb]
  · cases hv : v tok
    case valid uid =>
      have hft := hf tok
      rw [hv] at hft
      exact absurd hft (by simp [TokenVerdict.isFailure])
    all_goals simp only [hv]

/-- Amendment of claim C7: every failure of the token-variant auth gate is
answered with status 401, but the response body does distinguish the
missing-token case ("No token") from the verification failures ("Invalid
token"); among the verification failures themselves — malformed token, bad
signature, expired token — no distinction is surfaced: any two
always-failing verifiers produce identical responses. -/
theorem c7_auth_gate_uniform_401 (verify : String → TokenVerdict) (h : Option String)
    (s : Nat) (msg : String)
    (hrej : authRequired verify h = AuthResult.reject s msg) :
    s = 401 ∧ (msg = "No token" ∨ msg = "Invalid token") ∧
    (∀ v1 v2 : String → TokenVerdict,
      (∀ t, (v1 t).isFailure = true) → (∀ t, (v2 t).isFailure = true) →
      authRequired v1 h = authRequired v2 h) := by
  obtain ⟨hs, hm⟩ := authRequired_reject_cases verify h s msg hrej
  refine ⟨hs, hm, fun v1 v2 hf1 hf2 => ?_⟩
  rw [authRequired_fail_eq v1 h hf1, authRequired_fail_eq v2 h hf2]

/-- Concrete run of claim C7's amendment: an expired token is rejected with
status 401 and one of the two fixed bodies. -/
theorem c7_auth_gate_uniform_401_witness :
    (401 : Nat) = 401 ∧
    (("Invalid token" : String) = "No token" ∨
      ("Invalid token" : String) = "Invalid token") := by
  have h := c7_auth_gate_uniform_401 (fun _ => TokenVerdict.expired) (some "Bearer t")
    401 "Invalid token" (by decide)
  exact ⟨h.1, h.2.1⟩

/-- Counterexample to claim C7 as stated: the gate's response body does
distinguish the no-token case from a malformed token — "No token" versus
"Invalid token" — so the failure sub-cases are not fully indistinguishable
to the caller. -/
theorem c7_counterexample :
    authRequired (fun _ => TokenVerdict.malformed) none
      = AuthResult.reject 401 "No token" ∧
    authRequired (fun _ => TokenVerdict.malformed) (some "Bearer abc")
      = AuthResult.reject 401 "Invalid token" ∧
    ("No token" : String) ≠ "Invalid token" := by
  refine ⟨by decide, by decide, by decide⟩

/-- Amendment of claim C8: every handler except POST /auth/login runs its
body in a try/catch and turns any thrown failure into a JSON error
response; the login handler has no try/catch, so a store or bcrypt failure
escapes it unhandled instead of becoming a response. -/
theorem c8_boundary_catching (err : Option String) (m : String)
    (hash : String → String) (freshId : String)
    (name email password : Option String) (users : List User)
    (cmp : String → String → Bool) (sign : String → String)
    (b : FoodBody) (uid : String) (now : Nat) (st : List Food)
    (b2 : FoodBody2) (st2 : List Food2) (lat lng km : Option String) :
    (∃ r, signupBoundary err hash freshId name email password users = .responded r) ∧
    (∃ r, createFoodBoundary err b uid now st = .responded r) ∧
    (∃ r, listFoodBoundary err st = .responded r) ∧
    (∃ r, nearbyFoodBoundary err lat lng km = .responded r) ∧
    (∃ r, createFood2Boundary err b2 now st2 = .responded r) ∧
    (∃ r, listFood2Boundary err st2 = .responded r) ∧
    (∃ r, nearbyFood2Boundary err lat lng km = .responded r) ∧
    (∃ r, loginBoundary none cmp sign email password users = .responded r) ∧
    loginBoundary (some m) cmp sign email password users = .escaped m ∧
    signupBoundary (some m) hash freshId name email password users =
      .responded (.errCaught m) ∧
    createFoodBoundary (some m) b uid now st =
      .responded (.failure "Failed to add food") := by
  rcases err with _ | m0 <;>
    exact ⟨⟨_, rfl⟩, ⟨_, rfl⟩, ⟨_, rfl⟩, ⟨_, rfl⟩, ⟨_, rfl⟩, ⟨_, rfl⟩, ⟨_, rfl⟩,
      ⟨_, rfl⟩, rfl, rfl, rfl⟩

/-- Counterexample to claim C8 as stated: a store failure while handling
POST /auth/login escapes the handler unhandled (no JSON response), while
the same failure in POST /auth/signup is caught and answered. -/
theorem c8_counterexample :
    loginBoundary (some "store failure") (fun _ _ => true) (fun u => u)
      (some "a@b.c") (some "pw") [] = Outcome.escaped "store failure" ∧
    signupBoundary (some "store failure") (fun s => s) "id1" none
      (some "a@b.c") (some "pw") []
      = Outcome.responded (SignupResp.errCaught "store failure") := by
  exact ⟨rfl, rfl⟩

/-- A user found by the login lookup is a stored user. -/
theorem findOneByEmail_mem {email : Option String} {users : List User} {u : User}
    (h : findOneByEmail email users = some u) : u ∈ users := by
  rcases email with _ | e
  · rcases users with _ | ⟨a, l⟩
    · exact absurd h (by simp [findOneByEmail])
    · have : a = u := by
        have := h
        unfold findOneByEmail at this
        exact Option.some.inj this
      rw [← this]
      exact List.mem_cons_self a l
  · exact List.mem_of_find?_eq_some h

/-- Claim C9: a successful signup stores only the one-way hash of the
password (the persisted user's password field is `hash pw`), and both the
signup and login success responses carry only the public projection of a
stored user — id, name and email; the `PublicUser` response type has no
password field, so neither the plaintext nor the hash appears in them. -/
theorem c9_password_privacy (hash : String → String) (freshId : String)
    (name email password : Option String) (users : List User)
    (pu : PublicUser) (users' : List User) (pw : String)
    (cmp : String → String → Bool) (sign : String → String)
    (email2 password2 : Option String) (users2 : List User)
    (tok : String) (pu2 : PublicUser)
    (hpw : password = some pw)
    (hok : signup hash freshId name email password users = (SignupResp.ok pu, users'))
    (hlogin : login cmp sign email2 password2 users2 = LoginResp.ok tok pu2) :
    (∃ u : User, users' = users ++ [u] ∧ u.password = hash pw ∧
      pu = ⟨u.id, u.name, u.email⟩) ∧
    (∃ u ∈ users2, pu2 = ⟨u.id, u.name, u.email⟩) := by
  subst hpw
  constructor
  · unfold signup at hok
    split at hok
    · exact absurd hok (by simp)
    · rcases hfind : users.find?
          (fun v => v.email == normalizeEmail (email.getD "")) with _ | u0
      all_goals rw [hfind] at hok
      · obtain ⟨hpu, husers⟩ :
            SignupResp.ok ⟨freshId, name.map jsTrim, normalizeEmail (email.getD "")⟩
              = SignupResp.ok pu ∧
            users ++ [⟨freshId, name.map jsTrim, normalizeEmail (email.getD ""),
              hash ((some pw).getD "")⟩] = users' :=
          ⟨congrArg Prod.fst hok, congrArg Prod.snd hok⟩
        cases hpu
        exact ⟨_, husers.symm, rfl, rfl⟩
      · exact absurd hok (by simp)
  · unfold login at hlogin
    rcases hfind : findOneByEmail email2 users2 with _ | u
    all_goals simp only [hfind] at hlogin
    · exact absurd hlogin (by simp)
    · by_cases hcmp : cmp (password2.getD "") u.password = true
      · rw [if_pos hcmp] at hlogin
        obtain ⟨ht, hp⟩ := LoginResp.ok.inj hlogin
        exact ⟨u, findOneByEmail_mem hfind, hp.symm⟩
      · rw [if_neg hcmp] at hlogin
        exact absurd hlogin (by simp)

/-- Concrete run of claim C9: signing up "a@b.c" with password "secret"
stores the hash "secret#h" and answers with only id, name and email; the
matching login answers with a token and the same public fields. -/
theorem c9_password_privacy_witness :
    (∃ u : User, [⟨"id1", none, "a@b.c", "secret#h"⟩] = [] ++ [u] ∧
      u.password = (fun s => s ++ "#h") "secret" ∧
      (⟨"id1", none, "a@b.c"⟩ : PublicUser) = ⟨u.id, u.name, u.email⟩) ∧
    (∃ u ∈ [(⟨"id1", none, "a@b.c", "secret#h"⟩ : User)],
      (⟨"id1", none, "a@b.c"⟩ : PublicUser) = ⟨u.id, u.name, u.email⟩) := by
  exact c9_password_privacy (fun s => s ++ "#h") "id1" none (some "a@b.c") (some "secret")
    [] ⟨"id1", none, "a@b.c"⟩ [⟨"id1", none, "a@b.c", "secret#h"⟩] "secret"
    (fun a b => (a ++ "#h") == b) (fun u => "tok." ++ u)
    (some "a@b.c") (some "secret") [⟨"id1", none, "a@b.c", "secret#h"⟩]
    "tok.id1" ⟨"id1", none, "a@b.c"⟩ rfl (by decide) (by decide)

/-- Amendment of claim C10: in the token variant, a nearby query whose lat
and lng parse but whose km parameter is present, non-empty and unparseable
is not rejected with 400; the NaN radius is multiplied by 1000 (still NaN)
and passed to the store query as the maximum distance.  The present but
empty km parameter — also unparseable, since parseFloat of the empty string
is NaN — is the exception: it is falsy, so the handler's default kicks in
and the store receives a 5000 meter radius instead of NaN (see the
counterexample). -/
theorem c10_nan_km_passthrough (lat lng : Option String) (s : String)
    (h1 : (parseFloatQ lat).isNaN = false) (h2 : (parseFloatQ lng).isNaN = false)
    (hs : s ≠ "") (hnan : parseFloatS s = JNum.nan) :
    nearbyFood lat lng (some s) = NearbyResp.query
      ⟨parseFloatQ lng, parseFloatQ lat, JNum.nan, some 100⟩ ∧
    (nearbyFood lat lng (some s)).isInvalid = false := by
  have hk : kmRaw (some s) = s := by simp [kmRaw, hs]
  have hmul : (parseFloatS (kmRaw (some s))).mulJ (JNum.num 1000) = JNum.nan := by
    rw [hk, hnan]
    rfl
  have hq : nearbyFood lat lng (some s) = NearbyResp.query
      ⟨parseFloatQ lng, parseFloatQ lat, JNum.nan, some 100⟩ := by
    unfold nearbyFood
    rw [h1, h2, hmul]
    rfl
  exact ⟨hq, by rw [hq]; rfl⟩

/-- Concrete run of claim C10: lat=12.9, lng=77.6, km="abc" is not answered
400 and the store query's maximum distance is NaN. -/
theorem c10_nan_km_passthrough_witness :
    nearbyFood (some "12.9") (some "77.6") (some "abc") = NearbyResp.query
      ⟨parseFloatQ (some "77.6"), parseFloatQ (some "12.9"), JNum.nan, some 100⟩ ∧
    (nearbyFood (some "12.9") (some "77.6") (some "abc")).isInvalid = false :=
  c10_nan_km_passthrough (some "12.9") (some "77.6") "abc"
    (by decide) (by decide) (by decide) (by decide)

/-- Counterexample to claim C10 as stated: the empty-string km parameter is
present and does not parse as a number (parseFloat of the empty string is
NaN), yet because the empty string is falsy the handler's `km || "5"`
default replaces it, and the store query receives the 5000 meter default
radius instead of the claimed NaN passthrough. -/
theorem c10_counterexample :
    parseFloatS "" = JNum.nan ∧
    nearbyFood (some "12.9") (some "77.6") (some "") = NearbyResp.query
      ⟨JNum.num (mkRat 388 5), JNum.num (mkRat 129 10), JNum.num 5000, some 100⟩ ∧
    JNum.num (5000 : ℚ) ≠ JNum.nan := by
  refine ⟨by decide, by decide, by decide⟩

end Bhojanam
